import Mathlib

/-!
# Verification of `pulumi/main.go` (jakexks/cloudengsummit2020)

`main` hands one build function to `pulumi.Run`.  The build function declares
eleven resources against a `*pulumi.Context` and registers two exports.  The
embedding below keeps the declarations as data (every field of every argument
struct is transcribed), threads the context explicitly, and lets every
constructor of the SDK fail the way the SDK decides.
-/

namespace CloudEngSummit

/-! ## Data model -/

/-- Resource kinds constructed by `main`, one per SDK constructor
(`yaml.NewConfigFile`, `tls.NewPrivateKey`, `tls.NewSelfSignedCert`,
`corev1.NewSecret`, `certmanagerv1.NewIssuer`, `certmanagerv1.NewCertificate`,
`appsv1.NewDeployment`, `corev1.NewService`). -/
inductive Kind
  | ConfigFile
  | PrivateKey
  | SelfSignedCert
  | Secret
  | Issuer
  | Certificate
  | Deployment
  | Service
  deriving DecidableEq, Repr

/-- Identity of a resource node: `(kind, logical name)`.  It is also what a
constructor hands back to the program (the Go resource pointer). -/
structure ResourceId where
  kind : Kind
  name : String
  deriving DecidableEq, Repr

/-- Functions passed to `ApplyString` in `main.go`: the package-level
`toBase64` (lines 66 and 67) and the two function literals of lines 312-314
and 343-345 (`main.func1.1` and `main.func1.2` in Go's closure naming). -/
inductive Applier
  | toBase64
  | func1_1
  | func1_2
  deriving DecidableEq, Repr

/-- Deferred value (`pulumi.Output`): an output property of a resource, or the
result of `ApplyString` on another deferred value. -/
inductive Output
  | property (owner : ResourceId) (field : String)
  | ApplyString (src : Output) (f : Applier)
  deriving DecidableEq, Repr

/-- Input value of a resource argument: Go literals wrapped by `pulumi.String`,
`pulumi.Int`, `pulumi.Bool`, arrays, structs and string maps (a list of named
fields), and deferred values. -/
inductive Input
  | str (s : String)
  | int (n : Int)
  | bool (b : Bool)
  | array (items : List Input)
  | object (fields : List (String × Input))
  | deferred (o : Output)

mutual
/-- Deferred values occurring anywhere inside an input, left to right. -/
def Input.outputs : Input → List Output
  | .str _ => []
  | .int _ => []
  | .bool _ => []
  | .array items => Input.outputsOfItems items
  | .object fields => Input.outputsOfFields fields
  | .deferred o => [o]
/-- Deferred values inside the items of an array. -/
def Input.outputsOfItems : List Input → List Output
  | [] => []
  | x :: xs => Input.outputs x ++ Input.outputsOfItems xs
/-- Deferred values inside the fields of a struct or map. -/
def Input.outputsOfFields : List (String × Input) → List Output
  | [] => []
  | (_, x) :: xs => Input.outputs x ++ Input.outputsOfFields xs
end

/-- Field lookup in a struct or map input (`none` on anything else). -/
def Input.get? : Input → String → Option Input
  | .object fields, key => (fields.find? (fun kv => kv.1 == key)).map Prod.snd
  | _, _ => none

/-- Field names of a struct or map input, in the order written. -/
def Input.keys : Input → List String
  | .object fields => fields.map Prod.fst
  | _ => []

/-- Resource option of a constructor call; `main` only uses
`pulumi.DependsOn`. -/
inductive ResourceOption
  | DependsOn (resources : List ResourceId)
  deriving DecidableEq, Repr

/-- A declared resource: what one constructor call registers. -/
structure Resource where
  kind : Kind
  name : String
  args : Input
  opts : List ResourceOption

/-- Identity `(kind, logical name)` of a declared resource. -/
def Resource.id (r : Resource) : ResourceId := ⟨r.kind, r.name⟩

/-- Go `error` value returned by a constructor. -/
structure Error where
  msg : String
  deriving DecidableEq, Repr

/-- The `*pulumi.Context` as far as `main` touches it: the resources
registered so far, in registration order, and the export map. -/
structure Context where
  resources : List Resource
  exports : List (String × Output)

/-- Context handed to the build function by `pulumi.Run`. -/
def Context.empty : Context := ⟨[], []⟩

/-- `ctx.Export(name, value)`: the export map entry for `name` is set to
`value` (a later export of the same name replaces the earlier one). -/
def Context.Export (ctx : Context) (name : String) (value : Output) : Context :=
  { ctx with exports := ctx.exports.filter (fun kv => kv.1 != name) ++ [(name, value)] }

/-- A constructor call that returns an error: the error, and the context as
the constructor leaves it.  What a failing constructor has done to the context
before it returns is the SDK's business (`yaml.NewConfigFile`, for one,
registers its component before it reads the file), so it is not fixed here. -/
structure Rejection where
  err : Error
  after : Context

/-- The SDK side of a constructor call, which `main.go` does not contain: given
the context so far and the resource being declared it either accepts the
declaration (`none`) or rejects it, returning an error and leaving a context of
its choice. -/
abbrev SDK := Context → Resource → Option Rejection

/-- One constructor call `NewX(ctx, name, args, opts...)`: on rejection the
error is returned and the context is the one the SDK left, otherwise the
resource is appended to the context and its handle is returned. -/
def registerResource (sdk : SDK) (ctx : Context) (kind : Kind) (name : String)
    (args : Input) (opts : List ResourceOption) : Except Error ResourceId × Context :=
  match sdk ctx ⟨kind, name, args, opts⟩ with
  | some rej => (.error rej.err, rej.after)
  | none => (.ok ⟨kind, name⟩, { ctx with resources := ctx.resources ++ [⟨kind, name, args, opts⟩] })

/-- Constructor `yaml.NewConfigFile`. -/
def NewConfigFile (sdk : SDK) (ctx : Context) (name : String) (args : Input)
    (opts : List ResourceOption) : Except Error ResourceId × Context :=
  registerResource sdk ctx .ConfigFile name args opts

/-- Constructor `tls.NewPrivateKey`. -/
def NewPrivateKey (sdk : SDK) (ctx : Context) (name : String) (args : Input)
    (opts : List ResourceOption) : Except Error ResourceId × Context :=
  registerResource sdk ctx .PrivateKey name args opts

/-- Constructor `tls.NewSelfSignedCert`. -/
def NewSelfSignedCert (sdk : SDK) (ctx : Context) (name : String) (args : Input)
    (opts : List ResourceOption) : Except Error ResourceId × Context :=
  registerResource sdk ctx .SelfSignedCert name args opts

/-- Constructor `corev1.NewSecret`. -/
def NewSecret (sdk : SDK) (ctx : Context) (name : String) (args : Input)
    (opts : List ResourceOption) : Except Error ResourceId × Context :=
  registerResource sdk ctx .Secret name args opts

/-- Constructor `certmanagerv1.NewIssuer`. -/
def NewIssuer (sdk : SDK) (ctx : Context) (name : String) (args : Input)
    (opts : List ResourceOption) : Except Error ResourceId × Context :=
  registerResource sdk ctx .Issuer name args opts

/-- Constructor `certmanagerv1.NewCertificate`. -/
def NewCertificate (sdk : SDK) (ctx : Context) (name : String) (args : Input)
    (opts : List ResourceOption) : Except Error ResourceId × Context :=
  registerResource sdk ctx .Certificate name args opts

/-- Constructor `appsv1.NewDeployment`. -/
def NewDeployment (sdk : SDK) (ctx : Context) (name : String) (args : Input)
    (opts : List ResourceOption) : Except Error ResourceId × Context :=
  registerResource sdk ctx .Deployment name args opts

/-- Constructor `corev1.NewService`. -/
def NewService (sdk : SDK) (ctx : Context) (name : String) (args : Input)
    (opts : List ResourceOption) : Except Error ResourceId × Context :=
  registerResource sdk ctx .Service name args opts

/-- Output property `PrivateKeyPem` of a `*tls.PrivateKey`. -/
def ResourceId.PrivateKeyPem (r : ResourceId) : Output := .property r "PrivateKeyPem"

/-- Output property `CertPem` of a `*tls.SelfSignedCert`. -/
def ResourceId.CertPem (r : ResourceId) : Output := .property r "CertPem"

/-- Output property `Status` of a `*corev1.Service`. -/
def ResourceId.Status (r : ResourceId) : Output := .property r "Status"

/-! ## The argument literals of `main.go` -/

/-- Lines 20-22: `&yaml.ConfigFileArgs{...}`. -/
def certManagerArgs : Input :=
  .object [("File", .str "../k8s/cert-manager.yaml")]

/-- Lines 30-33: `&tls.PrivateKeyArgs{...}`. -/
def privateKeyArgs : Input :=
  .object [("Algorithm", .str "RSA"), ("RsaBits", .int 2048)]

/-- Lines 38-54: `&tls.SelfSignedCertArgs{...}`. -/
def caCertArgs (privateKey : ResourceId) : Input :=
  .object [
    ("KeyAlgorithm", .str "RSA"),
    ("PrivateKeyPem", .deferred privateKey.PrivateKeyPem),
    ("IsCaCertificate", .bool true),
    ("ValidityPeriodHours", .int 8760),
    ("AllowedUses", .array [.str "key_encipherment", .str "digital_signature", .str "cert_signing"]),
    ("Subjects", .array [
      .object [("CommonName", .str "private-ca"), ("Organization", .str "Jetstack")]])]

/-- Lines 60-70: `&corev1.SecretArgs{...}`. -/
def secretArgs (caCert privateKey : ResourceId) : Input :=
  .object [
    ("Metadata", .object [("Name", .str "ca"), ("Namespace", .str "default")]),
    ("Data", .object [
      ("tls.crt", .deferred (caCert.CertPem.ApplyString .toBase64)),
      ("tls.key", .deferred (privateKey.PrivateKeyPem.ApplyString .toBase64))]),
    ("Type", .str "kubernetes.io/tls")]

/-- Lines 76-87: `&certmanagerv1.IssuerArgs{...}`. -/
def issuerArgs : Input :=
  .object [
    ("ApiVersion", .str "cert-manager.io/v1"),
    ("Kind", .str "Issuer"),
    ("Metadata", .object [("Name", .str "ca"), ("Namespace", .str "default")]),
    ("Spec", .object [("Ca", .object [("SecretName", .str "ca")])])]

/-- Lines 94-118: `&certmanagerv1.CertificateArgs{...}` of Certificate "ping". -/
def pingCertArgs : Input :=
  .object [
    ("ApiVersion", .str "cert-manager.io/v1"),
    ("Kind", .str "Certificate"),
    ("Metadata", .object [("Name", .str "ping"), ("Namespace", .str "default")]),
    ("Spec", .object [
      ("Duration", .str "1h"),
      ("RenewBefore", .str "30m"),
      ("SecretName", .str "ping-tls"),
      ("DnsNames", .array [.str "ping.default.svc.cluster.local"]),
      ("IssuerRef", .object [("Kind", .str "Issuer"), ("Name", .str "ca")]),
      ("Usages", .array [.str "key encipherment", .str "digital signature",
        .str "server auth", .str "client auth"])])]

/-- Lines 123-147: `&certmanagerv1.CertificateArgs{...}` of Certificate "pong". -/
def pongCertArgs : Input :=
  .object [
    ("ApiVersion", .str "cert-manager.io/v1"),
    ("Kind", .str "Certificate"),
    ("Metadata", .object [("Name", .str "pong"), ("Namespace", .str "default")]),
    ("Spec", .object [
      ("Duration", .str "1h"),
      ("RenewBefore", .str "30m"),
      ("SecretName", .str "pong-tls"),
      ("DnsNames", .array [.str "pong.default.svc.cluster.local"]),
      ("IssuerRef", .object [("Kind", .str "Issuer"), ("Name", .str "ca")]),
      ("Usages", .array [.str "key encipherment", .str "digital signature",
        .str "server auth", .str "client auth"])])]

/-- Lines 154-156: `pingLabels := pulumi.StringMap{...}`. -/
def pingLabels : Input := .object [("app", .str "ping")]

/-- Lines 218-220: `pongLabels := pulumi.StringMap{...}`. -/
def pongLabels : Input := .object [("app", .str "pong")]

/-- Lines 157-214: `&appsv1.DeploymentArgs{...}` of Deployment "ping". -/
def pingDeploymentArgs : Input :=
  .object [
    ("Metadata", .object [("Name", .str "ping"), ("Namespace", .str "default"),
      ("Labels", pingLabels)]),
    ("Spec", .object [
      ("Replicas", .int 1),
      ("Selector", .object [("MatchLabels", pingLabels)]),
      ("Template", .object [
        ("Metadata", .object [("Labels", pingLabels)]),
        ("Spec", .object [
          ("Volumes", .array [
            .object [("Name", .str "tls"),
              ("Secret", .object [("SecretName", .str "ping-tls")])]]),
          ("Containers", .array [
            .object [
              ("Image", .str "maartje/tls-ping-pong:2d1f1a81edf639ec2b1221f0cb7d84eb01bcae16"),
              ("Name", .str "pingpong"),
              ("Command", .array [
                .str "pingpong",
                .str "-endpoint=https://pong.default.svc.cluster.local:8443/ping",
                .str "-ca-file=/etc/ssl/private/ca.crt",
                .str "-cert-file=/etc/ssl/private/tls.crt",
                .str "-key-file=/etc/ssl/private/tls.key"]),
              ("Ports", .array [
                .object [("ContainerPort", .int 8443), ("Name", .str "internal-https")],
                .object [("ContainerPort", .int 9443), ("Name", .str "external-https")]]),
              ("VolumeMounts", .array [
                .object [("MountPath", .str "/etc/ssl/private"), ("Name", .str "tls"),
                  ("ReadOnly", .bool true)]])]])])])])]

/-- Lines 221-278: `&appsv1.DeploymentArgs{...}` of Deployment "pong". -/
def pongDeploymentArgs : Input :=
  .object [
    ("Metadata", .object [("Name", .str "pong"), ("Namespace", .str "default"),
      ("Labels", pongLabels)]),
    ("Spec", .object [
      ("Replicas", .int 1),
      ("Selector", .object [("MatchLabels", pongLabels)]),
      ("Template", .object [
        ("Metadata", .object [("Labels", pongLabels)]),
        ("Spec", .object [
          ("Volumes", .array [
            .object [("Name", .str "tls"),
              ("Secret", .object [("SecretName", .str "pong-tls")])]]),
          ("Containers", .array [
            .object [
              ("Image", .str "maartje/tls-ping-pong:2d1f1a81edf639ec2b1221f0cb7d84eb01bcae16"),
              ("Name", .str "pingpong"),
              ("Command", .array [
                .str "pingpong",
                .str "-endpoint=https://ping.default.svc.cluster.local:8443/ping",
                .str "-ca-file=/etc/ssl/private/ca.crt",
                .str "-cert-file=/etc/ssl/private/tls.crt",
                .str "-key-file=/etc/ssl/private/tls.key"]),
              ("Ports", .array [
                .object [("ContainerPort", .int 8443), ("Name", .str "internal-https")],
                .object [("ContainerPort", .int 9443), ("Name", .str "external-https")]]),
              ("VolumeMounts", .array [
                .object [("MountPath", .str "/etc/ssl/private"), ("Name", .str "tls"),
                  ("ReadOnly", .bool true)]])]])])])])]

/-- Lines 295-306 and 326-337: the `corev1.ServicePortArray{...}` literal, written
out identically for both Services. -/
def servicePorts : Input :=
  .array [
    .object [("Name", .str "internal-https"), ("Port", .int 8443),
      ("TargetPort", .str "internal-https")],
    .object [("Name", .str "external-https"), ("Port", .int 9443),
      ("TargetPort", .str "external-https")]]

/-- Lines 284-308: `&corev1.ServiceArgs{...}` of Service "ping". -/
def pingSvcArgs : Input :=
  .object [
    ("Metadata", .object [("Name", .str "ping"), ("Namespace", .str "default"),
      ("Labels", pingLabels)]),
    ("Spec", .object [
      ("Type", .str "LoadBalancer"),
      ("Selector", .object [("app", .str "ping")]),
      ("Ports", servicePorts)])]

/-- Lines 315-339: `&corev1.ServiceArgs{...}` of Service "pong"; line 319 reads
`Labels: pingLabels`. -/
def pongSvcArgs : Input :=
  .object [
    ("Metadata", .object [("Name", .str "pong"), ("Namespace", .str "default"),
      ("Labels", pingLabels)]),
    ("Spec", .object [
      ("Type", .str "LoadBalancer"),
      ("Selector", .object [("app", .str "pong")]),
      ("Ports", servicePorts)])]

/-! ## The build function -/

/-- The function literal passed to `pulumi.Run` (lines 18-347).  The first
component is the returned `error` (`none` is Go's `nil`), the second the
context as the function leaves it. -/
def main.func1 (sdk : SDK) (ctx : Context) : Option Error × Context :=
  match NewConfigFile sdk ctx "cert-manager" certManagerArgs [] with
  | (.error err, ctx) => (some err, ctx)
  | (.ok certManager, ctx) =>
  match NewPrivateKey sdk ctx "ca" privateKeyArgs [] with
  | (.error err, ctx) => (some err, ctx)
  | (.ok privateKey, ctx) =>
  match NewSelfSignedCert sdk ctx "ca" (caCertArgs privateKey) [] with
  | (.error err, ctx) => (some err, ctx)
  | (.ok caCert, ctx) =>
  match NewSecret sdk ctx "ca" (secretArgs caCert privateKey) [] with
  | (.error err, ctx) => (some err, ctx)
  | (.ok _, ctx) =>
  match NewIssuer sdk ctx "ca" issuerArgs [.DependsOn [certManager]] with
  | (.error err, ctx) => (some err, ctx)
  | (.ok issuer, ctx) =>
  match NewCertificate sdk ctx "ping" pingCertArgs [.DependsOn [issuer]] with
  | (.error err, ctx) => (some err, ctx)
  | (.ok _, ctx) =>
  match NewCertificate sdk ctx "pong" pongCertArgs [.DependsOn [issuer]] with
  | (.error err, ctx) => (some err, ctx)
  | (.ok _, ctx) =>
  match NewDeployment sdk ctx "ping" pingDeploymentArgs [] with
  | (.error err, ctx) => (some err, ctx)
  | (.ok _, ctx) =>
  match NewDeployment sdk ctx "pong" pongDeploymentArgs [] with
  | (.error err, ctx) => (some err, ctx)
  | (.ok _, ctx) =>
  match NewService sdk ctx "ping" pingSvcArgs [] with
  | (.error err, ctx) => (some err, ctx)
  | (.ok pingSvc, ctx) =>
  let ctx := ctx.Export "pingURL" (pingSvc.Status.ApplyString .func1_1)
  match NewService sdk ctx "pong" pongSvcArgs [] with
  | (.error err, ctx) => (some err, ctx)
  | (.ok pongSvc, ctx) =>
  let ctx := ctx.Export "pongURL" (pongSvc.Status.ApplyString .func1_2)
  (none, ctx)

/-- Call `pulumi.Run(body)`: the body runs on a fresh context. -/
def Run (body : Context → Option Error × Context) : Option Error × Context :=
  body Context.empty

/-- Function `main` (lines 17-348). -/
def main (sdk : SDK) : Option Error × Context :=
  Run (main.func1 sdk)

/-- An SDK all of whose constructor calls succeed. -/
def okSDK : SDK := fun _ _ => none

/-- The graph declared by `main`: the context left by a run in which every
constructor succeeds. -/
def mainCtx : Context := (main okSDK).2

/-! ## The export transforms -/

/-- Go type `corev1.LoadBalancerIngress` (pointer fields are options). -/
structure LoadBalancerIngress where
  Hostname : Option String
  Ip : Option String
  deriving DecidableEq, Repr

/-- Go type `corev1.LoadBalancerStatus`. -/
structure LoadBalancerStatus where
  Ingress : List LoadBalancerIngress
  deriving DecidableEq, Repr

/-- Go type `corev1.ServiceStatus`. -/
structure ServiceStatus where
  LoadBalancer : Option LoadBalancerStatus
  deriving DecidableEq, Repr

/-- Run-time panics of the Go runtime that the export transforms can raise. -/
inductive GoPanic
  | nilDereference
  | indexOutOfRange (index length : Nat)
  deriving DecidableEq, Repr

/-- Body of `Sprintf` on the characters of the format: literal text is copied,
`%s` and `%v` print the next string operand (`%!s(MISSING)` when there is none),
`%%` prints a percent sign, a trailing `%` prints `%!(NOVERB)`, operands left
over are reported as `%!(EXTRA ...)`.  Other verbs are outside this fragment and
are copied through. -/
def Sprintf.go : List Char → List String → List Char
  | [], [] => []
  | [], a :: args =>
      "%!(EXTRA ".data ++ (", ".intercalate ((a :: args).map (fun x => "string=" ++ x))).data ++ [')']
  | ['%'], args => "%!(NOVERB)".data ++ Sprintf.go [] args
  | '%' :: '%' :: rest, args => '%' :: Sprintf.go rest args
  | '%' :: 's' :: rest, a :: args => a.data ++ Sprintf.go rest args
  | '%' :: 's' :: rest, [] => "%!s(MISSING)".data ++ Sprintf.go rest []
  | '%' :: 'v' :: rest, a :: args => a.data ++ Sprintf.go rest args
  | '%' :: 'v' :: rest, [] => "%!v(MISSING)".data ++ Sprintf.go rest []
  | c :: rest, args => c :: Sprintf.go rest args

/-- Function `fmt.Sprintf` on string operands. -/
def Sprintf (format : String) (args : List String) : String :=
  ⟨Sprintf.go format.data args⟩

/-- The function literal of lines 312-314, given to `pingSvc.Status.ApplyString`:
`fmt.Sprintf("https://%s:9443", *val.LoadBalancer.Ingress[0].Ip)`.  The Go
function returns a plain `string`; it has no error result, so the only other
outcome is a run-time panic. -/
def main.func1_1 (val : Option ServiceStatus) : Except GoPanic String :=
  match val with
  | none => .error .nilDereference
  | some val =>
  match val.LoadBalancer with
  | none => .error .nilDereference
  | some lb =>
  match lb.Ingress[0]? with
  | none => .error (.indexOutOfRange 0 lb.Ingress.length)
  | some ingress =>
  match ingress.Ip with
  | none => .error .nilDereference
  | some ip => .ok (Sprintf "https://%s:9443" [ip])

/-- The function literal of lines 343-345, given to `pongSvc.Status.ApplyString`;
its body is the same expression as that of lines 312-314. -/
def main.func1_2 (val : Option ServiceStatus) : Except GoPanic String :=
  match val with
  | none => .error .nilDereference
  | some val =>
  match val.LoadBalancer with
  | none => .error .nilDereference
  | some lb =>
  match lb.Ingress[0]? with
  | none => .error (.indexOutOfRange 0 lb.Ingress.length)
  | some ingress =>
  match ingress.Ip with
  | none => .error .nilDereference
  | some ip => .ok (Sprintf "https://%s:9443" [ip])

/-- The Go function an applier stands for, when it is one of the two function
literals on a service status (`toBase64` is declared outside `main.go`). -/
def Applier.onStatus : Applier → Option (Option ServiceStatus → Except GoPanic String)
  | .toBase64 => none
  | .func1_1 => some main.func1_1
  | .func1_2 => some main.func1_2

/-- Value of the export `name` once every Service's `Status` output has
resolved to `status`: the export must be `Status.ApplyString(f)` of some
resource, and `f` is run on the resolved status of that resource. -/
def Context.exportValue (ctx : Context) (status : ResourceId → Option ServiceStatus)
    (name : String) : Option (Except GoPanic String) :=
  match ctx.exports.lookup name with
  | some (.ApplyString (.property owner field) f) =>
      if field = "Status" then f.onStatus.map (fun g => g (status owner)) else none
  | _ => none

/-! ## Dependencies -/

/-- Producing node of a deferred value: `ApplyString` chains are followed back
to the resource whose output property they start from. -/
def Output.origin : Output → ResourceId
  | .property owner _ => owner
  | .ApplyString src _ => src.origin

/-- Explicit dependencies of a resource: the resources named by its
`pulumi.DependsOn` options. -/
def Resource.explicitDeps (r : Resource) : List ResourceId :=
  r.opts.flatMap (fun o => match o with | .DependsOn rs => rs)

/-- Implicit dependencies of a resource: the producing node of every deferred
value among its inputs. -/
def Resource.implicitDeps (r : Resource) : List ResourceId :=
  r.args.outputs.map Output.origin

/-- Dependencies of a resource: explicit ones and implicit ones. -/
def Resource.dependencies (r : Resource) : List ResourceId :=
  r.explicitDeps ++ r.implicitDeps

/-- Identities of the declared resources, in declaration order. -/
def Context.nodes (ctx : Context) : List ResourceId :=
  ctx.resources.map Resource.id

/-- Explicit edges `(dependent, dependency)`. -/
def Context.explicitEdges (ctx : Context) : List (ResourceId × ResourceId) :=
  ctx.resources.flatMap (fun r => r.explicitDeps.map (fun d => (r.id, d)))

/-- Implicit edges `(dependent, dependency)`. -/
def Context.implicitEdges (ctx : Context) : List (ResourceId × ResourceId) :=
  ctx.resources.flatMap (fun r => r.implicitDeps.map (fun d => (r.id, d)))

/-- All dependency edges `(dependent, dependency)`. -/
def Context.edges (ctx : Context) : List (ResourceId × ResourceId) :=
  ctx.resources.flatMap (fun r => r.dependencies.map (fun d => (r.id, d)))

/-- Relation `a` depends directly on `b`. -/
def Context.DependsOn (ctx : Context) (a b : ResourceId) : Prop :=
  (a, b) ∈ ctx.edges

/-- Relation `b` is a transitive dependency of `a`. -/
def Context.Reaches (ctx : Context) (a b : ResourceId) : Prop :=
  Relation.TransGen ctx.DependsOn a b

/-- A provisioning order of the graph: every declared node exactly once, each
dependency strictly before its dependent. -/
def Context.IsProvisioningOrder (ctx : Context) (order : List ResourceId) : Prop :=
  order.Perm ctx.nodes ∧ ∀ e ∈ ctx.edges, order.indexOf e.2 < order.indexOf e.1

instance (ctx : Context) (order : List ResourceId) : Decidable (ctx.IsProvisioningOrder order) := by
  unfold Context.IsProvisioningOrder; infer_instance

/-- The declared resource with the given identity, if any. -/
def Context.find? (ctx : Context) (id : ResourceId) : Option Resource :=
  ctx.resources.find? (fun r => r.id == id)

/-- Input of a declared resource at a path of field names. -/
def Input.path? : Input → List String → Option Input
  | x, [] => some x
  | x, k :: ks => match x.get? k with
    | some y => y.path? ks
    | none => none

/-- Input of the resource `id` at a path of field names. -/
def Context.input? (ctx : Context) (id : ResourceId) (path : List String) : Option Input :=
  match ctx.find? id with
  | some r => r.args.path? path
  | none => none

/-! ## Names for the eleven identities -/

/-- ConfigFile "cert-manager" (line 20). -/
def certManagerId : ResourceId := ⟨.ConfigFile, "cert-manager"⟩
/-- PrivateKey "ca" (line 30). -/
def privateKeyId : ResourceId := ⟨.PrivateKey, "ca"⟩
/-- SelfSignedCert "ca" (line 38). -/
def caCertId : ResourceId := ⟨.SelfSignedCert, "ca"⟩
/-- Secret "ca" (line 60). -/
def secretId : ResourceId := ⟨.Secret, "ca"⟩
/-- Issuer "ca" (line 76). -/
def issuerId : ResourceId := ⟨.Issuer, "ca"⟩
/-- Certificate "ping" (line 94). -/
def pingCertId : ResourceId := ⟨.Certificate, "ping"⟩
/-- Certificate "pong" (line 123). -/
def pongCertId : ResourceId := ⟨.Certificate, "pong"⟩
/-- Deployment "ping" (line 157). -/
def pingDeploymentId : ResourceId := ⟨.Deployment, "ping"⟩
/-- Deployment "pong" (line 221). -/
def pongDeploymentId : ResourceId := ⟨.Deployment, "pong"⟩
/-- Service "ping" (line 284). -/
def pingSvcId : ResourceId := ⟨.Service, "ping"⟩
/-- Service "pong" (line 315). -/
def pongSvcId : ResourceId := ⟨.Service, "pong"⟩

/-- The eleven identities in declaration order. -/
def declarationOrder : List ResourceId :=
  [certManagerId, privateKeyId, caCertId, secretId, issuerId, pingCertId, pongCertId,
   pingDeploymentId, pongDeploymentId, pingSvcId, pongSvcId]

/-- A provisioning order in which Issuer "ca" comes before Secret "ca". -/
def issuerFirstOrder : List ResourceId :=
  [certManagerId, issuerId, pingCertId, pongCertId, privateKeyId, caCertId, secretId,
   pingDeploymentId, pongDeploymentId, pingSvcId, pongSvcId]

/-! ## Expected traces of the build function -/

/-- The eleven declarations in the order `main.go` writes them, with the
handles each one receives from the earlier constructors. -/
def declared : List Resource :=
  [⟨.ConfigFile, "cert-manager", certManagerArgs, []⟩,
   ⟨.PrivateKey, "ca", privateKeyArgs, []⟩,
   ⟨.SelfSignedCert, "ca", caCertArgs privateKeyId, []⟩,
   ⟨.Secret, "ca", secretArgs caCertId privateKeyId, []⟩,
   ⟨.Issuer, "ca", issuerArgs, [.DependsOn [certManagerId]]⟩,
   ⟨.Certificate, "ping", pingCertArgs, [.DependsOn [issuerId]]⟩,
   ⟨.Certificate, "pong", pongCertArgs, [.DependsOn [issuerId]]⟩,
   ⟨.Deployment, "ping", pingDeploymentArgs, []⟩,
   ⟨.Deployment, "pong", pongDeploymentArgs, []⟩,
   ⟨.Service, "ping", pingSvcArgs, []⟩,
   ⟨.Service, "pong", pongSvcArgs, []⟩]

/-- Export registered on line 312. -/
def pingURLExport : String × Output :=
  ("pingURL", .ApplyString (.property pingSvcId "Status") .func1_1)

/-- Export registered on line 343. -/
def pongURLExport : String × Output :=
  ("pongURL", .ApplyString (.property pongSvcId "Status") .func1_2)

/-- The context in which the constructor number `k` (counted from 0) is
called when the earlier ones succeeded: the first `k` declarations, and the
exports registered before it.  `ctxAt 11` is the context after the last
statement. -/
def ctxAt (k : Nat) : Context :=
  { resources := declared.take k
    exports := if k < 10 then [] else if k = 10 then [pingURLExport] else [pingURLExport, pongURLExport] }

/-- An SDK whose constructor call for the resource `id` fails with `err`
without touching the context, and every other call succeeds. -/
def failAt (id : ResourceId) (err : Error) : SDK :=
  fun ctx r => if r.id = id then some ⟨err, ctx⟩ else none

/-- An SDK whose constructor call for the resource `id` registers the resource
and then fails with `err` (the way `yaml.NewConfigFile` fails on a file it
cannot read), and every other call succeeds. -/
def failAfterRegistering (id : ResourceId) (err : Error) : SDK :=
  fun ctx r =>
    if r.id = id then some ⟨err, { ctx with resources := ctx.resources ++ [r] }⟩ else none

/-- Status of a Service whose load balancer has one ingress entry with the
given IP. -/
def statusWithIp (ip : String) : Option ServiceStatus :=
  some ⟨some ⟨[⟨none, some ip⟩]⟩⟩

/-- Reference run over a list of declarations starting at constructor number
`k`: the first declaration the SDK rejects ends the run with its error, in the
context that rejected call left; with no rejection the run ends without error
in the context after the last declaration. -/
def scan (sdk : SDK) : List Resource → Nat → Option Error × Context
  | [], k => (none, ctxAt k)
  | r :: rs, k =>
    match sdk (ctxAt k) r with
    | some rej => (some rej.err, rej.after)
    | none => scan sdk rs (k + 1)

/-- What an export transform does on each shape of a resolved status: it
yields a string exactly when the status, its LoadBalancer, the first ingress
entry and that entry's IP are all present, and panics otherwise. -/
def TransformOutcomes (f : Option ServiceStatus → Except GoPanic String) : Prop :=
  f none = .error .nilDereference ∧
  f (some ⟨none⟩) = .error .nilDereference ∧
  f (some ⟨some ⟨[]⟩⟩) = .error (.indexOutOfRange 0 0) ∧
  (∀ hostname rest, f (some ⟨some ⟨⟨hostname, none⟩ :: rest⟩⟩) = .error .nilDereference) ∧
  (∀ hostname ip rest,
      f (some ⟨some ⟨⟨hostname, some ip⟩ :: rest⟩⟩) = .ok ("https://" ++ ip ++ ":9443"))

/-! ## Helper lemmas -/

/-- With an SDK that accepts everything the build function returns nil and
leaves the eleven declarations and both exports. -/
theorem main_okSDK : main okSDK = (none, ctxAt 11) := rfl

/-- The nodes of the graph are the eleven identities in declaration order. -/
theorem mainCtx_nodes : mainCtx.nodes = declarationOrder := by decide

/-- Along any chain of dependencies the position in a provisioning order
strictly decreases. -/
theorem reaches_indexOf_lt (ctx : Context) (order : List ResourceId)
    (h : ∀ e ∈ ctx.edges, order.indexOf e.2 < order.indexOf e.1) {a b : ResourceId}
    (hab : ctx.Reaches a b) : order.indexOf b < order.indexOf a := by
  induction hab with
  | single hd => exact h _ hd
  | tail _ hd ih => exact lt_trans (h _ hd) ih

/-- A set of nodes that contains the direct dependencies of `a` and is closed
under direct dependencies contains every transitive dependency of `a`. -/
theorem reaches_mem_of_closed (ctx : Context) (a : ResourceId) (S : List ResourceId)
    (hdirect : ∀ e ∈ ctx.edges, e.1 = a → e.2 ∈ S)
    (hclosed : ∀ e ∈ ctx.edges, e.1 ∈ S → e.2 ∈ S) {b : ResourceId}
    (hab : ctx.Reaches a b) : b ∈ S := by
  induction hab with
  | single hd => exact hdirect _ hd rfl
  | tail _ hd ih => exact hclosed _ hd ih

/-- The format of both export transforms, evaluated on any operand. -/
theorem Sprintf_url (ip : String) : Sprintf "https://%s:9443" [ip] = "https://" ++ ip ++ ":9443" := by
  apply String.ext
  simp [Sprintf, Sprintf.go, String.data_append]

/-! ## The dependency graph of `main` -/

/-- C1: the explicit dependency edges of the graph declared by `main` are
exactly Issuer "ca" on the cert-manager ConfigFile, Certificate "ping" on
Issuer "ca" and Certificate "pong" on Issuer "ca"; hence every provisioning
order puts cert-manager before Issuer "ca" and Issuer "ca" before both
Certificates, and neither Certificate is a transitive dependency of the
other. -/
theorem C1_explicit_edges :
    mainCtx.explicitEdges =
        [(issuerId, certManagerId), (pingCertId, issuerId), (pongCertId, issuerId)] ∧
    (∀ order, mainCtx.IsProvisioningOrder order →
        order.indexOf certManagerId < order.indexOf issuerId ∧
        order.indexOf issuerId < order.indexOf pingCertId ∧
        order.indexOf issuerId < order.indexOf pongCertId) ∧
    ¬ mainCtx.Reaches pingCertId pongCertId ∧
    ¬ mainCtx.Reaches pongCertId pingCertId := by
  refine ⟨by decide, ?_, ?_, ?_⟩
  · intro order h
    exact ⟨h.2 (issuerId, certManagerId) (by decide), h.2 (pingCertId, issuerId) (by decide),
      h.2 (pongCertId, issuerId) (by decide)⟩
  · intro h
    have hmem := reaches_mem_of_closed mainCtx pingCertId [issuerId, certManagerId]
      (by decide) (by decide) h
    exact absurd hmem (by decide)
  · intro h
    have hmem := reaches_mem_of_closed mainCtx pongCertId [issuerId, certManagerId]
      (by decide) (by decide) h
    exact absurd hmem (by decide)

/-- Instance of `C1_explicit_edges` at the declaration order, which is a
provisioning order. -/
theorem C1_explicit_edges_witness :
    mainCtx.IsProvisioningOrder declarationOrder ∧
    declarationOrder.indexOf certManagerId < declarationOrder.indexOf issuerId ∧
    declarationOrder.indexOf issuerId < declarationOrder.indexOf pingCertId ∧
    declarationOrder.indexOf issuerId < declarationOrder.indexOf pongCertId :=
  ⟨by decide, C1_explicit_edges.2.1 declarationOrder (by decide)⟩

/-- C2: the deferred inputs of the eleven resources are exactly the
`PrivateKeyPem` of PrivateKey "ca" in SelfSignedCert "ca", and
`CertPem.ApplyString(toBase64)` of SelfSignedCert "ca" and
`PrivateKeyPem.ApplyString(toBase64)` of PrivateKey "ca" in Secret "ca"; every
other resource has no deferred input, so the implicit edges are exactly these
three. -/
theorem C2_implicit_edges :
    mainCtx.resources.map (fun r => (r.id, r.args.outputs)) =
        [(certManagerId, []),
         (privateKeyId, []),
         (caCertId, [.property privateKeyId "PrivateKeyPem"]),
         (secretId, [.ApplyString (.property caCertId "CertPem") .toBase64,
                     .ApplyString (.property privateKeyId "PrivateKeyPem") .toBase64]),
         (issuerId, []), (pingCertId, []), (pongCertId, []), (pingDeploymentId, []),
         (pongDeploymentId, []), (pingSvcId, []), (pongSvcId, [])] ∧
    mainCtx.implicitEdges =
        [(caCertId, privateKeyId), (secretId, caCertId), (secretId, privateKeyId)] ∧
    (∀ r ∈ mainCtx.resources, r.id ≠ caCertId → r.id ≠ secretId →
        r.args.outputs = [] ∧ r.implicitDeps = []) := by
  refine ⟨by decide, by decide, ?_⟩
  intro r hr
  have hall : ∀ x ∈ mainCtx.resources.map (fun r => (r.id, r.args.outputs, r.implicitDeps)),
      x.1 ≠ caCertId → x.1 ≠ secretId → x.2.1 = [] ∧ x.2.2 = [] := by decide
  exact hall _ (List.mem_map_of_mem _ hr)

/-- C3: the dependency relation of `main` (explicit and implicit edges) over
its eleven nodes is acyclic, and a provisioning order of the eleven nodes
exists. -/
theorem C3_acyclic :
    mainCtx.nodes.length = 11 ∧
    mainCtx.edges =
        [(caCertId, privateKeyId), (secretId, caCertId), (secretId, privateKeyId),
         (issuerId, certManagerId), (pingCertId, issuerId), (pongCertId, issuerId)] ∧
    (∀ n, ¬ mainCtx.Reaches n n) ∧
    ∃ order, order.length = 11 ∧ mainCtx.IsProvisioningOrder order := by
  refine ⟨by decide, by decide, ?_, declarationOrder, by decide, by decide⟩
  intro n h
  have hlt := reaches_indexOf_lt mainCtx declarationOrder (by decide) h
  exact lt_irrefl _ hlt

/-- C4: the eleven declarations have pairwise distinct identities
`(kind, logical name)`, although "ca" names four resources and "ping" and
"pong" three each. -/
theorem C4_identities_distinct :
    mainCtx.nodes.length = 11 ∧
    mainCtx.nodes.Nodup ∧
    (mainCtx.nodes.filter (fun n => n.name = "ca")).map ResourceId.kind =
        [.PrivateKey, .SelfSignedCert, .Secret, .Issuer] ∧
    (mainCtx.nodes.filter (fun n => n.name = "ping")).map ResourceId.kind =
        [.Certificate, .Deployment, .Service] ∧
    (mainCtx.nodes.filter (fun n => n.name = "pong")).map ResourceId.kind =
        [.Certificate, .Deployment, .Service] := by
  refine ⟨by decide, by decide, by decide, by decide, by decide⟩

/-- C7: the data of Secret "ca" has exactly the keys "tls.crt" and "tls.key";
"tls.crt" is `toBase64` applied once to the `CertPem` of SelfSignedCert "ca",
"tls.key" is `toBase64` applied once to the `PrivateKeyPem` of PrivateKey
"ca", and that same `PrivateKeyPem` is the signing key input of SelfSignedCert
"ca". -/
theorem C7_secret_data :
    (mainCtx.input? secretId ["Data"]).map Input.keys = some ["tls.crt", "tls.key"] ∧
    mainCtx.input? secretId ["Data", "tls.crt"] =
        some (.deferred (.ApplyString (.property caCertId "CertPem") .toBase64)) ∧
    mainCtx.input? secretId ["Data", "tls.key"] =
        some (.deferred (.ApplyString (.property privateKeyId "PrivateKeyPem") .toBase64)) ∧
    mainCtx.input? caCertId ["PrivateKeyPem"] =
        some (.deferred (.property privateKeyId "PrivateKeyPem")) :=
  ⟨rfl, rfl, rfl, rfl⟩

/-- C9: Issuer "ca" names its Secret only by the literals "ca" and "default",
which are the metadata name and namespace of Secret "ca"; its only dependency
is the cert-manager ConfigFile, Secret "ca" is not among its transitive
dependencies, and there is a provisioning order in which Issuer "ca" comes
before Secret "ca". -/
theorem C9_issuer_before_secret :
    mainCtx.input? issuerId ["Spec", "Ca", "SecretName"] = some (.str "ca") ∧
    mainCtx.input? issuerId ["Metadata", "Namespace"] = some (.str "default") ∧
    mainCtx.input? secretId ["Metadata", "Name"] = some (.str "ca") ∧
    mainCtx.input? secretId ["Metadata", "Namespace"] = some (.str "default") ∧
    (mainCtx.find? issuerId).map Resource.dependencies = some [certManagerId] ∧
    (∀ b, mainCtx.Reaches issuerId b → b = certManagerId) ∧
    ¬ mainCtx.Reaches issuerId secretId ∧
    ∃ order, mainCtx.IsProvisioningOrder order ∧
        order.indexOf issuerId < order.indexOf secretId := by
  have hreach : ∀ b, mainCtx.Reaches issuerId b → b = certManagerId := by
    intro b h
    have hmem := reaches_mem_of_closed mainCtx issuerId [certManagerId] (by decide) (by decide) h
    simpa using hmem
  refine ⟨rfl, rfl, rfl, rfl, by decide, hreach, ?_, issuerFirstOrder, by decide, by decide⟩
  intro h
  exact absurd (hreach _ h) (by decide)

/-- C10 on the code: Service "ping" has labels equal to its selector and to
the labels of Deployment "ping", but Service "pong" carries the labels
`app = ping` (line 319 passes `pingLabels`), which differ from its own selector
`app = pong` and from the labels of Deployment "pong". -/
theorem C10_pong_service_labels :
    (mainCtx.input? pingSvcId ["Metadata", "Labels"] = some (.object [("app", .str "ping")]) ∧
     mainCtx.input? pingSvcId ["Spec", "Selector"] = some (.object [("app", .str "ping")]) ∧
     mainCtx.input? pingDeploymentId ["Metadata", "Labels"] = some (.object [("app", .str "ping")])) ∧
    (mainCtx.input? pongSvcId ["Metadata", "Labels"] = some (.object [("app", .str "ping")]) ∧
     mainCtx.input? pongSvcId ["Spec", "Selector"] = some (.object [("app", .str "pong")]) ∧
     mainCtx.input? pongDeploymentId ["Metadata", "Labels"] = some (.object [("app", .str "pong")])) ∧
    mainCtx.input? pongSvcId ["Metadata", "Labels"] ≠ mainCtx.input? pongSvcId ["Spec", "Selector"] ∧
    mainCtx.input? pongSvcId ["Metadata", "Labels"] ≠
      mainCtx.input? pongDeploymentId ["Metadata", "Labels"] := by
  have h1 : mainCtx.input? pongSvcId ["Metadata", "Labels"] = some (.object [("app", .str "ping")]) := rfl
  have h2 : mainCtx.input? pongSvcId ["Spec", "Selector"] = some (.object [("app", .str "pong")]) := rfl
  have h3 : mainCtx.input? pongDeploymentId ["Metadata", "Labels"] = some (.object [("app", .str "pong")]) := rfl
  refine ⟨⟨rfl, rfl, rfl⟩, ⟨h1, h2, h3⟩, ?_, ?_⟩
  · rw [h1, h2]; simp
  · rw [h1, h3]; simp

/-! ## Exports -/

/-- C5: `main` registers exactly the exports "pingURL" and "pongURL";
"pingURL" is `ApplyString` of the function of line 312 on the `Status` of
Service "ping", "pongURL" that of line 343 on the `Status` of Service "pong";
on a status whose first load-balancer ingress entry has the IP `ip` both
functions return `"https://" ++ ip ++ ":9443"`, so the exported values are
built from the IP of the export's own Service. -/
theorem C5_exports :
    mainCtx.exports =
        [("pingURL", .ApplyString (.property pingSvcId "Status") .func1_1),
         ("pongURL", .ApplyString (.property pongSvcId "Status") .func1_2)] ∧
    (∀ (hostname : Option String) (ip : String) (rest : List LoadBalancerIngress),
        main.func1_1 (some ⟨some ⟨⟨hostname, some ip⟩ :: rest⟩⟩) = .ok ("https://" ++ ip ++ ":9443") ∧
        main.func1_2 (some ⟨some ⟨⟨hostname, some ip⟩ :: rest⟩⟩) = .ok ("https://" ++ ip ++ ":9443")) ∧
    (∀ (ipPing ipPong : String),
        mainCtx.exportValue
            (fun r => if r = pingSvcId then statusWithIp ipPing else statusWithIp ipPong) "pingURL"
          = some (.ok ("https://" ++ ipPing ++ ":9443")) ∧
        mainCtx.exportValue
            (fun r => if r = pingSvcId then statusWithIp ipPing else statusWithIp ipPong) "pongURL"
          = some (.ok ("https://" ++ ipPong ++ ":9443"))) := by
  refine ⟨by decide, ?_, ?_⟩
  · intro hostname ip rest
    constructor
    · simp [main.func1_1, Sprintf_url]
    · simp [main.func1_2, Sprintf_url]
  · intro ipPing ipPong
    constructor
    · show some (Except.ok (Sprintf "https://%s:9443" [ipPing])) = _
      rw [Sprintf_url]
    · show some (Except.ok (Sprintf "https://%s:9443" [ipPong])) = _
      rw [Sprintf_url]

/-- C6 as stated fails: on a nil status the transform of "pingURL" panics with
a nil dereference, and on an empty ingress list the transform of "pongURL"
panics with an index out of range; neither yields a string. -/
theorem C6_transform_panics :
    ¬ (∀ val : Option ServiceStatus,
        (∃ s, main.func1_1 val = .ok s) ∧ (∃ s, main.func1_2 val = .ok s)) ∧
    main.func1_1 none = .error .nilDereference ∧
    main.func1_2 (some ⟨some ⟨[]⟩⟩) = .error (.indexOutOfRange 0 0) := by
  refine ⟨?_, rfl, rfl⟩
  intro h
  obtain ⟨⟨s, hs⟩, _⟩ := h none
  exact absurd hs (by simp [main.func1_1])

/-- C6 amended: each of the two export transforms yields a string exactly on a
status that is non-nil, has a non-nil LoadBalancer, a non-empty Ingress list
and an IP in the first ingress entry, and the string is then
`"https://" ++ ip ++ ":9443"`; on a nil status, a nil LoadBalancer or a first
entry without IP it panics with a nil dereference, and on an empty Ingress list
with an index out of range. -/
theorem C6_transform_outcomes :
    TransformOutcomes main.func1_1 ∧ TransformOutcomes main.func1_2 := by
  constructor
  · refine ⟨rfl, rfl, rfl, fun _ _ => ?_, fun hostname ip rest => ?_⟩
    · simp [main.func1_1]
    · simp [main.func1_1, Sprintf_url]
  · refine ⟨rfl, rfl, rfl, fun _ _ => ?_, fun hostname ip rest => ?_⟩
    · simp [main.func1_2]
    · simp [main.func1_2, Sprintf_url]

/-! ## Fail-fast behaviour of the build function -/

/-- A constructor call the SDK accepts registers the resource and returns its
handle. -/
theorem register_ok {sdk : SDK} (ctx : Context) {kind : Kind} {name : String} {args : Input}
    {opts : List ResourceOption} (h : sdk ctx ⟨kind, name, args, opts⟩ = none) :
    registerResource sdk ctx kind name args opts =
      (.ok ⟨kind, name⟩, ⟨ctx.resources ++ [⟨kind, name, args, opts⟩], ctx.exports⟩) := by
  simp [registerResource, h]

/-- A constructor call the SDK rejects returns the error, with the context the
SDK left. -/
theorem register_err {sdk : SDK} (ctx : Context) {kind : Kind} {name : String} {args : Input}
    {opts : List ResourceOption} {rej : Rejection}
    (h : sdk ctx ⟨kind, name, args, opts⟩ = some rej) :
    registerResource sdk ctx kind name args opts = (.error rej.err, rej.after) := by
  simp [registerResource, h]

/-- The reference run steps over an accepted declaration. -/
theorem scan_cons_none {sdk : SDK} {r : Resource} {rs : List Resource} {k : Nat}
    (h : sdk (ctxAt k) r = none) : scan sdk (r :: rs) k = scan sdk rs (k + 1) := by
  simp [scan, h]

/-- The reference run stops at a rejected declaration. -/
theorem scan_cons_err {sdk : SDK} {r : Resource} {rs : List Resource} {k : Nat}
    {rej : Rejection} (h : sdk (ctxAt k) r = some rej) :
    scan sdk (r :: rs) k = (some rej.err, rej.after) := by
  simp [scan, h]

/-- The build function computes the reference run over the eleven
declarations. -/
theorem main_eq_scan (sdk : SDK) : main sdk = scan sdk declared 0 := by
  unfold main Run main.func1 declared
  rcases h0 : sdk (ctxAt 0) ⟨.ConfigFile, "cert-manager", certManagerArgs, []⟩ with _ | rej
  swap
  · rw [scan_cons_err h0]
    rw [show NewConfigFile sdk Context.empty "cert-manager" certManagerArgs [] = (.error rej.err, rej.after)
      from register_err (ctxAt 0) h0]
  rw [scan_cons_none h0]
  rw [show NewConfigFile sdk Context.empty "cert-manager" certManagerArgs [] = (.ok certManagerId, ctxAt 1)
    from register_ok (ctxAt 0) h0]
  dsimp only
  rcases h1 : sdk (ctxAt 1) ⟨.PrivateKey, "ca", privateKeyArgs, []⟩ with _ | rej
  swap
  · rw [scan_cons_err h1]
    rw [show NewPrivateKey sdk (ctxAt 1) "ca" privateKeyArgs [] = (.error rej.err, rej.after)
      from register_err (ctxAt 1) h1]
  rw [scan_cons_none h1]
  rw [show NewPrivateKey sdk (ctxAt 1) "ca" privateKeyArgs [] = (.ok privateKeyId, ctxAt 2)
    from register_ok (ctxAt 1) h1]
  dsimp only
  rcases h2 : sdk (ctxAt 2) ⟨.SelfSignedCert, "ca", (caCertArgs privateKeyId), []⟩ with _ | rej
  swap
  · rw [scan_cons_err h2]
    rw [show NewSelfSignedCert sdk (ctxAt 2) "ca" (caCertArgs privateKeyId) [] = (.error rej.err, rej.after)
      from register_err (ctxAt 2) h2]
  rw [scan_cons_none h2]
  rw [show NewSelfSignedCert sdk (ctxAt 2) "ca" (caCertArgs privateKeyId) [] = (.ok caCertId, ctxAt 3)
    from register_ok (ctxAt 2) h2]
  dsimp only
  rcases h3 : sdk (ctxAt 3) ⟨.Secret, "ca", (secretArgs caCertId privateKeyId), []⟩ with _ | rej
  swap
  · rw [scan_cons_err h3]
    rw [show NewSecret sdk (ctxAt 3) "ca" (secretArgs caCertId privateKeyId) [] = (.error rej.err, rej.after)
      from register_err (ctxAt 3) h3]
  rw [scan_cons_none h3]
  rw [show NewSecret sdk (ctxAt 3) "ca" (secretArgs caCertId privateKeyId) [] = (.ok secretId, ctxAt 4)
    from register_ok (ctxAt 3) h3]
  dsimp only
  rcases h4 : sdk (ctxAt 4) ⟨.Issuer, "ca", issuerArgs, [.DependsOn [certManagerId]]⟩ with _ | rej
  swap
  · rw [scan_cons_err h4]
    rw [show NewIssuer sdk (ctxAt 4) "ca" issuerArgs [.DependsOn [certManagerId]] = (.error rej.err, rej.after)
      from register_err (ctxAt 4) h4]
  rw [scan_cons_none h4]
  rw [show NewIssuer sdk (ctxAt 4) "ca" issuerArgs [.DependsOn [certManagerId]] = (.ok issuerId, ctxAt 5)
    from register_ok (ctxAt 4) h4]
  dsimp only
  rcases h5 : sdk (ctxAt 5) ⟨.Certificate, "ping", pingCertArgs, [.DependsOn [issuerId]]⟩ with _ | rej
  swap
  · rw [scan_cons_err h5]
    rw [show NewCertificate sdk (ctxAt 5) "ping" pingCertArgs [.DependsOn [issuerId]] = (.error rej.err, rej.after)
      from register_err (ctxAt 5) h5]
  rw [scan_cons_none h5]
  rw [show NewCertificate sdk (ctxAt 5) "ping" pingCertArgs [.DependsOn [issuerId]] = (.ok pingCertId, ctxAt 6)
    from register_ok (ctxAt 5) h5]
  dsimp only
  rcases h6 : sdk (ctxAt 6) ⟨.Certificate, "pong", pongCertArgs, [.DependsOn [issuerId]]⟩ with _ | rej
  swap
  · rw [scan_cons_err h6]
    rw [show NewCertificate sdk (ctxAt 6) "pong" pongCertArgs [.DependsOn [issuerId]] = (.error rej.err, rej.after)
      from register_err (ctxAt 6) h6]
  rw [scan_cons_none h6]
  rw [show NewCertificate sdk (ctxAt 6) "pong" pongCertArgs [.DependsOn [issuerId]] = (.ok pongCertId, ctxAt 7)
    from register_ok (ctxAt 6) h6]
  dsimp only
  rcases h7 : sdk (ctxAt 7) ⟨.Deployment, "ping", pingDeploymentArgs, []⟩ with _ | rej
  swap
  · rw [scan_cons_err h7]
    rw [show NewDeployment sdk (ctxAt 7) "ping" pingDeploymentArgs [] = (.error rej.err, rej.after)
      from register_err (ctxAt 7) h7]
  rw [scan_cons_none h7]
  rw [show NewDeployment sdk (ctxAt 7) "ping" pingDeploymentArgs [] = (.ok pingDeploymentId, ctxAt 8)
    from register_ok (ctxAt 7) h7]
  dsimp only
  rcases h8 : sdk (ctxAt 8) ⟨.Deployment, "pong", pongDeploymentArgs, []⟩ with _ | rej
  swap
  · rw [scan_cons_err h8]
    rw [show NewDeployment sdk (ctxAt 8) "pong" pongDeploymentArgs [] = (.error rej.err, rej.after)
      from register_err (ctxAt 8) h8]
  rw [scan_cons_none h8]
  rw [show NewDeployment sdk (ctxAt 8) "pong" pongDeploymentArgs [] = (.ok pongDeploymentId, ctxAt 9)
    from register_ok (ctxAt 8) h8]
  dsimp only
  rcases h9 : sdk (ctxAt 9) ⟨.Service, "ping", pingSvcArgs, []⟩ with _ | rej
  swap
  · rw [scan_cons_err h9]
    rw [show NewService sdk (ctxAt 9) "ping" pingSvcArgs [] = (.error rej.err, rej.after)
      from register_err (ctxAt 9) h9]
  rw [scan_cons_none h9]
  rw [show NewService sdk (ctxAt 9) "ping" pingSvcArgs [] = (.ok pingSvcId, ⟨declared.take 10, []⟩)
    from register_ok (ctxAt 9) h9]
  dsimp only
  rcases h10 : sdk (ctxAt 10) ⟨.Service, "pong", pongSvcArgs, []⟩ with _ | rej
  swap
  · rw [scan_cons_err h10]
    rw [show NewService sdk (Context.Export ⟨declared.take 10, []⟩ "pingURL" (pingSvcId.Status.ApplyString .func1_1)) "pong" pongSvcArgs [] = (.error rej.err, rej.after)
      from register_err (ctxAt 10) h10]
  rw [scan_cons_none h10]
  rw [show NewService sdk (Context.Export ⟨declared.take 10, []⟩ "pingURL" (pingSvcId.Status.ApplyString .func1_1)) "pong" pongSvcArgs [] = (.ok pongSvcId, ⟨declared.take 11, [pingURLExport]⟩)
    from register_ok (ctxAt 10) h10]
  dsimp only
  rfl

/-- The reference run returns the error of the first rejected declaration, in
the context that rejected call left. -/
theorem scan_first_failure (sdk : SDK) (rs : List Resource) :
    ∀ (k i : Nat) (r : Resource) (rej : Rejection), rs[i]? = some r →
      (∀ j q, j < i → rs[j]? = some q → sdk (ctxAt (k + j)) q = none) →
      sdk (ctxAt (k + i)) r = some rej →
      scan sdk rs k = (some rej.err, rej.after) := by
  induction rs with
  | nil => intro k i r rej hr; simp at hr
  | cons a rs ih =>
    intro k i r rej hr hprev hfail
    cases i with
    | zero =>
      simp at hr
      subst hr
      exact scan_cons_err hfail
    | succ i =>
      have ha : sdk (ctxAt k) a = none := hprev 0 a (Nat.succ_pos i) (by simp)
      rw [scan_cons_none ha]
      have hidx : k + 1 + i = k + (i + 1) := by omega
      rw [← hidx] at hfail
      refine ih (k + 1) i r rej (by simpa using hr) ?_ hfail
      intro j q hj hq
      have hidx2 : k + 1 + j = k + (j + 1) := by omega
      rw [hidx2]
      exact hprev (j + 1) q (by omega) (by simpa using hq)

/-- The reference run ends without error exactly when every declaration is
accepted. -/
theorem scan_ok_iff (sdk : SDK) (rs : List Resource) :
    ∀ k : Nat, (scan sdk rs k).1 = none ↔
      ∀ j q, rs[j]? = some q → sdk (ctxAt (k + j)) q = none := by
  induction rs with
  | nil => intro k; simp [scan]
  | cons a rs ih =>
    intro k
    constructor
    · intro h j q hq
      rcases ha : sdk (ctxAt k) a with _ | rej
      · cases j with
        | zero =>
          simp at hq
          subst hq
          exact ha
        | succ j =>
          rw [scan_cons_none ha] at h
          have hidx : k + 1 + j = k + (j + 1) := by omega
          rw [← hidx]
          exact (ih (k + 1)).1 h j q (by simpa using hq)
      · rw [scan_cons_err ha] at h
        simp at h
    · intro h
      have ha : sdk (ctxAt k) a = none := h 0 a (by simp)
      rw [scan_cons_none ha]
      refine (ih (k + 1)).2 ?_
      intro j q hq
      have hidx : k + 1 + j = k + (j + 1) := by omega
      rw [hidx]
      exact h (j + 1) q (by simpa using hq)

/-- A reference run that ends without error ends in the context after the last
declaration. -/
theorem scan_ok_ctx (sdk : SDK) (rs : List Resource) :
    ∀ k : Nat, (scan sdk rs k).1 = none → (scan sdk rs k).2 = ctxAt (k + rs.length) := by
  induction rs with
  | nil => intro k _; simp [scan]
  | cons a rs ih =>
    intro k h
    rcases ha : sdk (ctxAt k) a with _ | rej
    · rw [scan_cons_none ha] at h ⊢
      have hidx : k + 1 + rs.length = k + (a :: rs).length := by simp; omega
      rw [← hidx]
      exact ih (k + 1) h
    · rw [scan_cons_err ha] at h
      simp at h

/-- C8: the build function fails fast.  If constructor number `k` (in
declaration order, all earlier ones having succeeded) returns an error, the
build function returns exactly that error and does nothing more: the context
is the one that failing constructor left, whatever the SDK did to it.  So when
the failing constructor added the resources `extra` (none, or its own
component) to the context it was called in, the context holds the first `k`
declarations and `extra`, no later declaration, and the exports registered
before constructor `k`, no later one.  The build function returns nil exactly
when all eleven constructors succeed, and then the context holds the eleven
declarations and both exports. -/
theorem C8_fail_fast (sdk : SDK) :
    declared.length = 11 ∧
    (∀ (k : Nat) (r : Resource) (rej : Rejection), declared[k]? = some r →
        (∀ j q, j < k → declared[j]? = some q → sdk (ctxAt j) q = none) →
        sdk (ctxAt k) r = some rej →
        main sdk = (some rej.err, rej.after) ∧
        (∀ extra : List Resource,
          rej.after = ⟨(ctxAt k).resources ++ extra, (ctxAt k).exports⟩ →
          (main sdk).2.resources = declared.take k ++ extra ∧
          (main sdk).2.exports.map Prod.fst = (if k < 10 then [] else ["pingURL"]))) ∧
    ((main sdk).1 = none ↔ ∀ j q, declared[j]? = some q → sdk (ctxAt j) q = none) ∧
    ((main sdk).1 = none →
        (main sdk).2.resources = declared ∧
        (main sdk).2.exports = [pingURLExport, pongURLExport] ∧
        (main sdk).2.exports.map Prod.fst = ["pingURL", "pongURL"]) := by
  refine ⟨rfl, ?_, ?_, ?_⟩
  · intro k r rej hr hprev hfail
    have hmain : main sdk = (some rej.err, rej.after) := by
      rw [main_eq_scan]
      exact scan_first_failure sdk declared 0 k r rej hr
        (fun j q hj hq => by rw [Nat.zero_add]; exact hprev j q hj hq)
        (by rw [Nat.zero_add]; exact hfail)
    have hk : k < 11 := by
      have hlt : k < declared.length := by
        by_contra hge
        rw [List.getElem?_eq_none (Nat.le_of_not_lt hge)] at hr
        exact absurd hr (by simp)
      exact hlt
    refine ⟨hmain, ?_⟩
    intro extra hafter
    rw [hmain, hafter]
    refine ⟨rfl, ?_⟩
    interval_cases k <;> rfl
  · rw [main_eq_scan, scan_ok_iff]
    simp only [Nat.zero_add]
  · intro h
    rw [main_eq_scan] at h ⊢
    have hctx := scan_ok_ctx sdk declared 0 h
    rw [hctx]
    exact ⟨rfl, rfl, rfl⟩

/-- Instance of `C8_fail_fast` at an SDK whose `NewService` for "pong"
registers the Service and then returns an error: the build function returns
that error, the context holds the first ten declarations and that Service, and
only "pingURL" is exported. -/
theorem C8_fail_fast_witness :
    main (failAfterRegistering pongSvcId ⟨"rejected"⟩) =
      (some ⟨"rejected"⟩, ⟨declared.take 10 ++ [⟨.Service, "pong", pongSvcArgs, []⟩],
        [pingURLExport]⟩) ∧
    (main (failAfterRegistering pongSvcId ⟨"rejected"⟩)).2.resources =
      declared.take 10 ++ [⟨.Service, "pong", pongSvcArgs, []⟩] ∧
    (main (failAfterRegistering pongSvcId ⟨"rejected"⟩)).2.exports.map Prod.fst = ["pingURL"] := by
  have h := (C8_fail_fast (failAfterRegistering pongSvcId ⟨"rejected"⟩)).2.1 10
    ⟨.Service, "pong", pongSvcArgs, []⟩
    ⟨⟨"rejected"⟩, ⟨(ctxAt 10).resources ++ [(⟨.Service, "pong", pongSvcArgs, []⟩ : Resource)],
      (ctxAt 10).exports⟩⟩
    rfl
    (by
      intro j q hj hq
      interval_cases j <;> (simp [declared] at hq; subst hq; rfl))
    rfl
  have h2 := h.2 [⟨.Service, "pong", pongSvcArgs, []⟩] rfl
  exact ⟨h.1, h2.1, h2.2⟩

end CloudEngSummit
